import Mathlib

/-!
Verification development for the minecon repository (a Minecraft server
manager: Flask control API in `main.py`, Discord front-end in
`discord_bot.py`).  The definitions below are a shallow embedding of the
Python source: pure data is translated directly, external effects
(HTTP requests, subprocess handles, the filesystem, the mrpack installer
library) are made explicit as parameters or simple state components, and
the sqlite database is an explicit record of its two tables.
-/

namespace Minecon

/-- Server status values, the five strings `"stopped"`, `"starting"`,
`"running"`, `"stopping"`, `"error"` used throughout `main.py`. -/
inductive Status
  | stopped
  | starting
  | running
  | stopping
  | error
deriving DecidableEq, Repr

/-- In-memory state of `MinecraftServer` (`main.py`, `__init__`, lines
54-68).  `process` models whether `self.process` holds a live subprocess
handle (`None` becomes `false`). -/
structure MCServer where
  port : Nat
  version : String
  server_type : String
  process : Bool
  status : Status
  memory : String
  motd : String
  max_players : Nat
  auto_start : Bool
  temporary : Bool
  mrpack_minecraft_version : Option String
deriving DecidableEq, Repr

/-- A row of the sqlite `servers` table (`init_db`, `main.py` 493-502). -/
structure DBServerRow where
  port : Nat
  version : String
  server_type : String
  status : Status
  memory : String
  motd : String
  max_players : Nat
  auto_start : Bool
  last_started : Option String
deriving DecidableEq, Repr

/-- A row of the sqlite `server_logs` table (`init_db`, `main.py` 504-510). -/
structure DBLogRow where
  port : Nat
  text : String
  level : String
deriving DecidableEq, Repr

/-- The sqlite database `minecraft_servers.db`: its two tables, rows in
insertion order (the `id` autoincrement column is the list position). -/
structure DB where
  servers : List DBServerRow
  server_logs : List DBLogRow
deriving DecidableEq, Repr

/-- The empty database. -/
def emptyDB : DB := ⟨[], []⟩

/-- Whether the character list `pat` is a prefix of the second list. -/
def charsHavePrefix : List Char → List Char → Bool
  | [], _ => true
  | _ :: _, [] => false
  | a :: as, b :: bs => a == b && charsHavePrefix as bs

/-- Whether the character list `pat` occurs contiguously in the second
list. -/
def charsContain (pat : List Char) : List Char → Bool
  | [] => charsHavePrefix pat []
  | c :: cs => charsHavePrefix pat (c :: cs) || charsContain pat cs

/-- Python's `sub in line` substring test. -/
def strContainsSub (line pat : String) : Bool :=
  charsContain pat.data line.data

/-- Python's `s.startswith(pat)`. -/
def strStartsWith (s pat : String) : Bool :=
  charsHavePrefix pat.data s.data

/-- Python's `s.endswith(pat)`. -/
def strEndsWith (s pat : String) : Bool :=
  charsHavePrefix pat.data.reverse s.data.reverse

/-- Drops the first `n` characters of a string. -/
def strDrop (s : String) (n : Nat) : String :=
  ⟨s.data.drop n⟩

/-- Python's `s.lower()`.  (ASCII case folding; the code's inputs of
interest are ASCII or already lower-case.) -/
def pyLower (s : String) : String :=
  ⟨s.data.map Char.toLower⟩

/-- Python's `s.strip()`: removes leading and trailing whitespace. -/
def pyStrip (s : String) : String :=
  ⟨((s.data.dropWhile Char.isWhitespace).reverse.dropWhile
    Char.isWhitespace).reverse⟩

/-- Numeric value of a digit string. -/
def digitsVal (cs : List Char) : Nat :=
  cs.foldl (fun acc c => acc * 10 + (c.toNat - 48)) 0

/-- Python's `int(s)` on stripped input, as an option (`None` stands for
the `ValueError` branch): an optional minus sign followed by one or more
digits. -/
def pyToInt (s : String) : Option Int :=
  match s.data with
  | [] => none
  | '-' :: rest =>
      if rest.isEmpty then none
      else if rest.all Char.isDigit then some (-(digitsVal rest : Int))
      else none
  | cs =>
      if cs.all Char.isDigit then some (digitsVal cs : Int)
      else none

/-- Repository kinds, the `"type"` field of the `REPOSITORIES` table
(`main.py` lines 33-40). -/
inductive RepoType
  | mojang
  | papermc
  | purpur
  | fabric
  | velocity
  | modrinth
deriving DecidableEq, Repr

/-- `REPOSITORIES.get(server_type)` restricted to the `"type"` field,
which is all `download_server` branches on (`main.py` 33-40, 236-242). -/
def repoTypeOf : String → Option RepoType
  | "vanilla" => some .mojang
  | "paper" => some .papermc
  | "purpur" => some .purpur
  | "fabric" => some .fabric
  | "velocity" => some .velocity
  | "mrpack" => some .modrinth
  | _ => none

/-- Outcomes of the external world consulted by `download_server`:
the third-party metadata endpoints, the artifact HTTP GET, the contents
of the `uploads` directory, and the `minecraft_launcher_lib` mrpack
installer.  These are I/O collaborators of `main.py`, made explicit. -/
structure NetEnv where
  /-- all metadata requests succeed and the requested version exists,
  yielding a concrete `download_url` (`main.py` 257-304) -/
  resolveOk : Bool
  /-- the artifact GET (`requests.get(download_url, stream=True)`,
  `main.py` 307) returns HTTP 200 and streams to disk -/
  fetchOk : Bool
  /-- filenames present in the `uploads` directory (`main.py` 328-331) -/
  uploads : List String
  /-- `minecraft_launcher_lib.mrpack.install_mrpack` does not raise
  (`main.py` 354-358) -/
  installOk : Bool
  /-- files the mrpack install materializes into the server directory -/
  installedFiles : List String
deriving Repr

/-- A `NetEnv` in which every network interaction succeeds. -/
def netAllOk : NetEnv := ⟨true, true, [], true, []⟩

/-- `MinecraftServer.download_server` (`main.py` 228-320) together with
`_download_mrpack` / `_process_mrpack` (322-389).  The server directory
is modelled as the list of file names it contains; the result is
`(returned jar path, directory contents afterwards, number of artifact
GET requests issued)`.  Faithful points: the cache check
(`os.path.exists(jar_path)`, line 249) tests the name
`{server_type}-{version}.jar`, while the fabric branch (283-293)
re-assigns `jar_name = "fabric-server.jar"` after that check, so a
fabric download is written under a different name than the one the
cache check looks for; all exceptions are caught and become `None`
(318-320). -/
def downloadServer (server_type version : String) (env : NetEnv)
    (files : List String) : Option String × List String × Nat :=
  match repoTypeOf server_type with
  | none => (none, files, 0)
  | some RepoType.modrinth =>
      if strStartsWith version "uploaded:" then
        let filename := strDrop version 9
        if env.uploads.contains filename then
          if env.installOk then
            let files1 := files ++ env.installedFiles
            match files1.filter (fun f => strEndsWith f ".jar") with
            | [] => (none, files1, 0)
            | j :: _ => (some j, files1, 0)
          else (none, files, 0)
        else (none, files, 0)
      else (none, files, 0)
  | some rt =>
      let jarName := server_type ++ "-" ++ version ++ ".jar"
      if files.contains jarName then (some jarName, files, 0)
      else if env.resolveOk then
        let outName := if rt = RepoType.fabric then "fabric-server.jar" else jarName
        if env.fetchOk then (some outName, outName :: files, 1)
        else (none, files, 1)
      else (none, files, 0)

/-- `MinecraftServer._save_to_db` (`main.py` 70-79): `INSERT OR REPLACE`
of the server row; `last_started` is not among the inserted columns, so
a replaced row gets `NULL` there. -/
def saveToDb (s : MCServer) (db : DB) : DB :=
  let r : DBServerRow :=
    ⟨s.port, s.version, s.server_type, s.status, s.memory, s.motd,
      s.max_players, s.auto_start, none⟩
  if db.servers.any (fun x => x.port == s.port) then
    { db with servers := db.servers.map (fun x => if x.port == s.port then r else x) }
  else
    { db with servers := db.servers ++ [r] }

/-- `MinecraftServer.__init__` (`main.py` 54-68): builds the in-memory
object with its defaults and, unless `temporary`, saves it to the
database. -/
def mkMinecraftServer (port : Nat) (version server_type : String)
    (temporary : Bool) (db : DB) : MCServer × DB :=
  let s : MCServer :=
    ⟨port, version, server_type, false, Status.stopped, "2G",
      "Minecraft Server", 20, false, temporary, none⟩
  if temporary then (s, db) else (s, saveToDb s db)

/-- `MinecraftServer.update_status` (`main.py` 81-94): sets the in-memory
status; temporary instances return before any SQL; otherwise the row is
updated, with `last_started = CURRENT_TIMESTAMP` when the new status is
`running`.  `now` stands for the database clock. -/
def update_status (s : MCServer) (st : Status) (now : String) (db : DB) :
    MCServer × DB :=
  let s1 := { s with status := st }
  if s.temporary then (s1, db)
  else
    let rows := db.servers.map (fun r =>
      if r.port == s.port then
        if st = Status.running then { r with status := st, last_started := some now }
        else { r with status := st }
      else r)
    (s1, { db with servers := rows })

/-- `MinecraftServer.add_log` (`main.py` 96-110): temporary instances
return before any SQL; otherwise one row is appended to `server_logs`
with the timestamp-prefixed text.  `ts` stands for the wall clock. -/
def add_log (s : MCServer) (message level ts : String) (db : DB) : DB :=
  if s.temporary then db
  else { db with server_logs :=
    db.server_logs ++ [⟨s.port, "[" ++ ts ++ "] " ++ message, level⟩] }

/-- Database-touching operations available on a `MinecraftServer`
instance: a status update or a log append. -/
inductive SrvOp
  | updStatus (st : Status) (now : String)
  | logMsg (message level ts : String)
deriving Repr

/-- Runs a sequence of `update_status` / `add_log` calls on a server,
threading the in-memory object and the database. -/
def applySrvOps (s : MCServer) (db : DB) : List SrvOp → MCServer × DB
  | [] => (s, db)
  | SrvOp.updStatus st now :: rest =>
      let r := update_status s st now db
      applySrvOps r.1 r.2 rest
  | SrvOp.logMsg m l t :: rest =>
      applySrvOps s (add_log s m l t db) rest

/-- Result of `MinecraftServer.start` (`main.py` 160-226): the returned
boolean, the updated in-memory server, the server directory contents,
and the list of status values written (in order) during the call. -/
structure StartResult where
  ok : Bool
  srv : MCServer
  files : List String
  writes : List Status
deriving Repr

/-- `MinecraftServer.start` (`main.py` 160-226).  `jarOk` models the
`os.path.isfile` / non-empty-size checks on the downloaded jar
(lines 186-193); `spawnOk` models `subprocess.Popen` succeeding
(lines 202-211, an exception lands in the handler at 222-226 which sets
status `error`).  Database side effects of the embedded `update_status`
and `add_log` calls are modelled separately by those functions. -/
def start (s : MCServer) (env : NetEnv) (jarOk spawnOk : Bool)
    (files : List String) : StartResult :=
  if s.status = Status.running then ⟨false, s, files, []⟩
  else
    match downloadServer s.server_type s.version env files with
    | (none, files1, _) => ⟨false, s, files1, []⟩
    | (some jar, files1, _) =>
        if files1.contains jar = false then ⟨false, s, files1, []⟩
        else if jarOk = false then ⟨false, s, files1, []⟩
        else if spawnOk = false then
          ⟨false, { s with status := Status.error }, files1, [Status.error]⟩
        else
          ⟨true, { s with process := true, status := Status.starting },
            files1, [Status.starting]⟩

/-- Behaviour of the external process during `stop()`: whether the
`stop` directive can be written to its stdin (a dead pipe raises and
lands in the handler at `main.py` 455-457), the number of seconds after
the directive at which `poll()` first reports exit (`none`: the process
ignores the directive), and whether `terminate()` ends it. -/
structure ProcBehavior where
  stdinOpen : Bool
  exitTime : Option Nat
  diesOnTerminate : Bool
deriving Repr

/-- Whether the process has exited `t` seconds after the stop directive. -/
def procExited (pb : ProcBehavior) (t : Nat) : Bool :=
  match pb.exitTime with
  | none => false
  | some k => k ≤ t

/-- The bounded wait of `stop()` (`main.py` 437-440):
`for _ in range(30): if poll() is not None: break; time.sleep(1)`.
Returns the seconds slept when the loop ends. -/
def pollLoop (pb : ProcBehavior) : Nat → Nat → Nat
  | 0, t => t
  | n + 1, t => if procExited pb t then t else pollLoop pb n (t + 1)

/-- Observable escalation trace of one `stop()` call. -/
structure StopTrace where
  pollSeconds : Nat
  terminated : Bool
  killed : Bool
deriving DecidableEq, Repr

/-- Result of `MinecraftServer.stop` (`main.py` 425-457). -/
structure StopResult where
  ok : Bool
  srv : MCServer
  trace : StopTrace
  writes : List Status
deriving Repr

/-- `MinecraftServer.stop` (`main.py` 425-457): returns `False` if there
is no process handle or status is already `stopped`; writes the `stop`
directive (a raised exception returns `False` with nothing changed);
otherwise transitions to `stopping`, polls up to 30 one-second sleeps,
escalates to `terminate()` plus a 5-second wait and then `kill()` if the
process is still alive, and always ends with the handle cleared and
status `stopped`. -/
def stopServer (s : MCServer) (pb : ProcBehavior) : StopResult :=
  if s.process = false ∨ s.status = Status.stopped then
    ⟨false, s, ⟨0, false, false⟩, []⟩
  else if pb.stdinOpen = false then
    ⟨false, s, ⟨0, false, false⟩, []⟩
  else
    let t := pollLoop pb 30 0
    let needTerm := !procExited pb t
    let killed := needTerm && !(pb.diesOnTerminate || procExited pb (t + 5))
    ⟨true, { s with process := false, status := Status.stopped },
      ⟨t, needTerm, killed⟩, [Status.stopping, Status.stopped]⟩

/-- State of one supervised server together with its background output
monitor (`threading.Thread(target=self.monitor_output)`, `main.py` 218)
and its on-disk server directory. -/
structure SysState where
  srv : MCServer
  monitorAlive : Bool
  files : List String
deriving Repr

/-- Events acting on a supervised server: a `start()` call, a `stop()`
call, one line of process output consumed by `monitor_output`
(`main.py` 408-423), and closure of the output stream (which merely ends
the reader loop). -/
inductive Ev
  | opStart (env : NetEnv) (jarOk spawnOk : Bool)
  | opStop (pb : ProcBehavior)
  | line (l : String)
  | streamClose

/-- One event step: the next system state plus the list of status values
written during the event.  `monitor_output` classifies a line containing
both `"Done"` and `"For help"` as successful boot (status `running`) and
a line containing `"Failed to start"` as boot failure (status `error`);
stream closure only ends the reader (`main.py` 408-423). -/
def stepEv (st : SysState) : Ev → SysState × List Status
  | Ev.opStart env jarOk spawnOk =>
      let r := start st.srv env jarOk spawnOk st.files
      (⟨r.srv, st.monitorAlive || r.ok, r.files⟩, r.writes)
  | Ev.opStop pb =>
      let r := stopServer st.srv pb
      (⟨r.srv, st.monitorAlive, st.files⟩, r.writes)
  | Ev.line l =>
      if st.monitorAlive then
        if strContainsSub l "Done" && strContainsSub l "For help" then
          (⟨{ st.srv with status := Status.running }, st.monitorAlive, st.files⟩,
            [Status.running])
        else if strContainsSub l "Failed to start" then
          (⟨{ st.srv with status := Status.error }, st.monitorAlive, st.files⟩,
            [Status.error])
        else (st, [])
      else (st, [])
  | Ev.streamClose => (⟨st.srv, false, st.files⟩, [])

/-- Runs a sequence of events. -/
def runSys (st : SysState) : List Ev → SysState
  | [] => st
  | e :: evs => runSys (stepEv st e).1 evs

/-- The status transitions observed when, starting from status `cur`,
the given values are written in order; writes of the current value are
not transitions. -/
def edgesOfWrites : Status → List Status → List (Status × Status)
  | _, [] => []
  | cur, w :: ws =>
      (if cur = w then [] else [(cur, w)]) ++ edgesOfWrites w ws

/-- All status transitions observed along a run. -/
def runEdges (st : SysState) : List Ev → List (Status × Status)
  | [] => []
  | e :: evs =>
      let r := stepEv st e
      edgesOfWrites st.srv.status r.2 ++ runEdges r.1 evs

/-- The transition graph claimed by the specification (§4.1): the chain
`stopped → starting → running → stopping → stopped` plus transitions
into `error`. -/
def specEdgeOK (e : Status × Status) : Bool :=
  e == (Status.stopped, Status.starting) ||
  e == (Status.starting, Status.running) ||
  e == (Status.running, Status.stopping) ||
  e == (Status.stopping, Status.stopped) ||
  e.2 == Status.error

/-- The transition graph the code actually realizes: `start()` moves any
non-`running` status to `starting`; a completion line moves any status
to `running` (the reader keeps consuming buffered lines even after a
`stop()`); `stop()` moves any non-`stopped` status to `stopping` and
then to `stopped`; anything can move to `error`. -/
def edgeOK (e : Status × Status) : Bool :=
  match e.2 with
  | Status.starting => e.1 != Status.running
  | Status.running => true
  | Status.stopping => e.1 != Status.stopped
  | Status.stopped => e.1 == Status.stopping
  | Status.error => true

/-- A freshly created persistent server, as built by the creation
endpoints of `main.py`. -/
def exampleServer : MCServer := (mkMinecraftServer 25565 "1.20.1" "vanilla" false emptyDB).1

/-- A fresh supervisor state for `exampleServer`: no process, no monitor,
empty server directory. -/
def exampleInit : SysState := ⟨exampleServer, false, []⟩

/-- `get_logs` route (`main.py` 858-869): reads the last `limit` log rows
for the port in chronological order.  It performs no lookup in the
`servers` registry and always answers HTTP 200; it only reads. -/
def get_logs (port limit : Nat) (db : DB) : Nat × List String :=
  let logs := (db.server_logs.filter (fun r => r.port == port)).map (fun r => r.text)
  (200, (logs.reverse.take limit).reverse)

/-- `get_status` route (`main.py` 871-885): `servers.get(port)`; unknown
ports answer HTTP 404 with no body and no state change. -/
def get_status (port : Nat) (registry : List (Nat × MCServer)) :
    Nat × Option MCServer :=
  match registry.lookup port with
  | none => (404, none)
  | some s => (200, some s)

/-- The cancellation tokens, `['отмена', 'cancel', 'stop']`
(`discord_bot.py` 350 and 525). -/
def cancelWords : List String := ["отмена", "cancel", "stop"]

/-- The confirmation tokens of step 2 of the plugin wizard,
`['подтвердить', 'ок', 'yes', 'ok']` (`discord_bot.py` 612). -/
def confirmWords : List String := ["подтвердить", "ок", "yes", "ok"]

/-- The server types accepted at step 2 of the creation wizard
(`discord_bot.py` 396). -/
def validTypes : List String := ["vanilla", "paper", "purpur", "fabric", "mrpack"]

/-- The `re.match(r'^\d+[MG]$', memory)` check of creation-wizard step 4
(`discord_bot.py` 466): one or more digits followed by `M` or `G`. -/
def memFormatOk (s : String) : Bool :=
  match s.data.getLast? with
  | some c =>
      (c == 'M' || c == 'G') && !s.data.dropLast.isEmpty &&
        s.data.dropLast.all Char.isDigit
  | none => false

/-- One creation-wizard session (`bot.setup_sessions[user_id]`,
`discord_bot.py` 914-920). -/
structure SetupSession where
  step : Nat
  port : Option Int
  server_type : Option String
  version : Option String
  memory : String
deriving DecidableEq, Repr

/-- The session `ServerCreateCommand.callback` installs
(`discord_bot.py` 914-920). -/
def freshSetupSession : SetupSession := ⟨1, none, none, none, "2G"⟩

/-- The distinct user-visible replies of `handle_setup_message`
(`discord_bot.py` 339-509), one constructor per message branch. -/
inductive SetupReply
  | cancelled
  | invalidPort
  | portOutOfRange
  | portInUse
  | askType
  | typeUnknown
  | askVersion
  | versionEmpty
  | askMemory
  | memoryInvalid
  | createSuccess
  | createError
  | unhandled
deriving DecidableEq, Repr

/-- The per-session body of `MinecraftBot.handle_setup_message`
(`discord_bot.py` 339-509): strips the content, checks the cancellation
tokens first, then dispatches on the step.  `portTaken p` models the
`/api/server/status/{p}` probe answering HTTP 200 (port occupied);
`createOk` models the final `/create_server` POST answering 200.
Returns the reply and the surviving session (`none` when the session is
deleted).  When `step` is outside 1-4 the Python function falls through
and returns `None` (reply `unhandled`). -/
def handleSetupSession (sess : SetupSession) (content0 : String)
    (portTaken : Int → Bool) (createOk : Bool) :
    SetupReply × Option SetupSession :=
  let content := pyStrip content0
  if cancelWords.contains (pyLower content) then (SetupReply.cancelled, none)
  else if sess.step = 1 then
    match pyToInt content with
    | none => (SetupReply.invalidPort, some sess)
    | some p =>
        if p < 25565 ∨ p > 26000 then (SetupReply.portOutOfRange, some sess)
        else if portTaken p then (SetupReply.portInUse, some sess)
        else (SetupReply.askType, some { sess with port := some p, step := 2 })
  else if sess.step = 2 then
    let st := pyLower content
    if validTypes.contains st then
      (SetupReply.askVersion, some { sess with server_type := some st, step := 3 })
    else (SetupReply.typeUnknown, some sess)
  else if sess.step = 3 then
    if content = "" then (SetupReply.versionEmpty, some sess)
    else (SetupReply.askMemory, some { sess with version := some content, step := 4 })
  else if sess.step = 4 then
    if memFormatOk content then
      (if createOk then SetupReply.createSuccess else SetupReply.createError, none)
    else (SetupReply.memoryInvalid, some sess)
  else (SetupReply.unhandled, some sess)

/-- Removes a user's entry from a session table (`del sessions[uid]`). -/
def eraseSession {α : Type} (uid : Nat) (m : List (Nat × α)) : List (Nat × α) :=
  m.filter (fun p => p.1 != uid)

/-- Sets a user's entry in a session table (`sessions[uid] = s`). -/
def putSession {α : Type} (uid : Nat) (s : α) (m : List (Nat × α)) :
    List (Nat × α) :=
  (uid, s) :: eraseSession uid m

/-- `MinecraftBot.handle_setup_message` at the session-table level:
users without a session are not handled (Python returns `False`);
otherwise the session body runs and the table is updated or the entry
deleted.  Returns (handled flag, reply if any, new table). -/
def handleSetupMessage (m : List (Nat × SetupSession)) (uid : Nat)
    (content : String) (portTaken : Int → Bool) (createOk : Bool) :
    Bool × Option SetupReply × List (Nat × SetupSession) :=
  match m.lookup uid with
  | none => (false, none, m)
  | some sess =>
      let r := handleSetupSession sess content portTaken createOk
      match r.2 with
      | none => (r.1 ≠ SetupReply.unhandled, some r.1, eraseSession uid m)
      | some sess1 => (r.1 ≠ SetupReply.unhandled, some r.1, putSession uid sess1 m)

/-- One plugin-install session (`bot.plugin_sessions[user_id]`,
`discord_bot.py` 1032-1039).  File bytes are modelled as strings. -/
structure PluginSession where
  step : Nat
  port : Nat
  server_type : String
  filename : Option String
  file_content : Option String
  folder : Option String
deriving DecidableEq, Repr

/-- The session `ServerInstallPluginCommand.callback` installs
(`discord_bot.py` 1032-1039). -/
def freshPluginSession (port : Nat) (server_type : String) : PluginSession :=
  ⟨1, port, server_type, none, none, none⟩

/-- A Discord message attachment. -/
structure Attachment where
  filename : String
  content : String
deriving DecidableEq, Repr

/-- Destination folder for a plugin/mod upload (`discord_bot.py`
547-552): `plugins` for paper and purpur, `mods` for fabric, `plugins`
otherwise. -/
def folderFor (server_type : String) : String :=
  if server_type = "paper" ∨ server_type = "purpur" then "plugins"
  else if server_type = "fabric" then "mods"
  else "plugins"

/-- The distinct user-visible replies of the plugin-install part of
`MinecraftBot.on_message` (`discord_bot.py` 520-646). -/
inductive PluginReply
  | cancelled
  | notJar
  | downloadFailed
  | askConfirm
  | needFileOrUrl
  | installed
  | uploadError
  | abortedNonConfirm
  | unhandled
deriving DecidableEq, Repr

/-- The plugin-install branch of `MinecraftBot.on_message`
(`discord_bot.py` 520-646), per session: the cancellation tokens are
checked on the raw (unstripped) lowered content before anything else;
step 1 accepts an attachment or a URL (`dl` models
`MinecraftBot.download_file` returning a filename/bytes pair or
failing), rejecting non-`.jar` names by deleting the session; step 2
uploads on an affirmative token (`uploadOk` models the upload POST
answering 200) and deletes the session on any other input. -/
def handlePluginSession (sess : PluginSession) (content : String)
    (attachments : List Attachment) (dl : Option (String × String))
    (uploadOk : Bool) : PluginReply × Option PluginSession :=
  if cancelWords.contains (pyLower content) then (PluginReply.cancelled, none)
  else if sess.step = 1 then
    match attachments with
    | att :: _ =>
        if strEndsWith (pyLower att.filename) ".jar" = false then
          (PluginReply.notJar, none)
        else
          (PluginReply.askConfirm,
            some { sess with
                    filename := some att.filename,
                    file_content := some att.content,
                    step := 2,
                    folder := some (folderFor sess.server_type) })
    | [] =>
        if pyStrip content ≠ "" then
          match dl with
          | none => (PluginReply.downloadFailed, none)
          | some (fn, bytes) =>
              if strEndsWith (pyLower fn) ".jar" = false then
                (PluginReply.notJar, none)
              else
                (PluginReply.askConfirm,
                  some { sess with
                          filename := some fn,
                          file_content := some bytes,
                          step := 2,
                          folder := some (folderFor sess.server_type) })
        else (PluginReply.needFileOrUrl, some sess)
  else if sess.step = 2 then
    if confirmWords.contains (pyLower content) then
      (if uploadOk then PluginReply.installed else PluginReply.uploadError, none)
    else (PluginReply.abortedNonConfirm, none)
  else (PluginReply.unhandled, some sess)

/-- The plugin-install branch of `on_message` at the session-table
level: a user without a plugin session is left alone. -/
def pluginOnMessage (m : List (Nat × PluginSession)) (uid : Nat)
    (content : String) (attachments : List Attachment)
    (dl : Option (String × String)) (uploadOk : Bool) :
    Option PluginReply × List (Nat × PluginSession) :=
  match m.lookup uid with
  | none => (none, m)
  | some sess =>
      let r := handlePluginSession sess content attachments dl uploadOk
      match r.2 with
      | none => (some r.1, eraseSession uid m)
      | some sess1 => (some r.1, putSession uid sess1 m)

/-- The two independent session tables of `MinecraftBot.__init__`
(`discord_bot.py` 37-38). -/
structure BotState where
  setup_sessions : List (Nat × SetupSession)
  plugin_sessions : List (Nat × PluginSession)
deriving Repr

/-- Replies of the wizard-start slash commands. -/
inductive WizardStartReply
  | started
  | alreadyActive
  | serverNotFound
deriving DecidableEq, Repr

/-- `ServerCreateCommand.callback` (`discord_bot.py` 901-932): rejects
when the user already has a *creation* session (only
`bot.setup_sessions` is consulted), otherwise installs a fresh
creation session. -/
def serverCreateCallback (uid : Nat) (b : BotState) :
    WizardStartReply × BotState :=
  if (b.setup_sessions.lookup uid).isSome then
    (WizardStartReply.alreadyActive, b)
  else
    (WizardStartReply.started,
      { b with setup_sessions := putSession uid freshSetupSession b.setup_sessions })

/-- `ServerInstallPluginCommand.callback` (`discord_bot.py` 1010-1053):
first probes the server (`serverInfo` is `some server_type` when the
status endpoint answers 200), then rejects only when the user already
has a *plugin* session (only `bot.plugin_sessions` is consulted),
otherwise installs a fresh plugin session. -/
def serverInstallPluginCallback (uid port : Nat)
    (serverInfo : Option String) (b : BotState) :
    WizardStartReply × BotState :=
  match serverInfo with
  | none => (WizardStartReply.serverNotFound, b)
  | some stype =>
      if (b.plugin_sessions.lookup uid).isSome then
        (WizardStartReply.alreadyActive, b)
      else
        (WizardStartReply.started,
          { b with plugin_sessions :=
            putSession uid (freshPluginSession port stype) b.plugin_sessions })

/-- Core cache lemma for the four repository kinds whose download is
written exactly at the checked cache path: after one call, a second call
issues no artifact GET and returns the cached name. -/
theorem downloadServer_idem (st v : String) (rt : RepoType) (env : NetEnv)
    (files : List String)
    (hrt : repoTypeOf st = some rt)
    (hf : rt ≠ RepoType.fabric) (hm : rt ≠ RepoType.modrinth)
    (hres : env.resolveOk = true) (hfet : env.fetchOk = true) :
    let r1 := downloadServer st v env files
    let r2 := downloadServer st v env r1.2.1
    r2.2.2 = 0 ∧ r1.2.2 + r2.2.2 ≤ 1 ∧
      r2.1 = some (st ++ "-" ++ v ++ ".jar") ∧ r2.2.1 = r1.2.1 := by
  intro r1 r2
  have houtName : (if rt = RepoType.fabric then "fabric-server.jar"
      else st ++ "-" ++ v ++ ".jar") = st ++ "-" ++ v ++ ".jar" := by
    simp [hf]
  by_cases hc : (files.contains (st ++ "-" ++ v ++ ".jar")) = true
  · have h1 : r1 = (some (st ++ "-" ++ v ++ ".jar"), files, 0) := by
      simp only [r1, downloadServer, hrt]
      cases rt <;> simp_all
    have h2 : r2 = (some (st ++ "-" ++ v ++ ".jar"), files, 0) := by
      simp only [r2, downloadServer, hrt, h1]
      cases rt <;> simp_all
    simp [h1, h2]
  · have h1 : r1 = (some (st ++ "-" ++ v ++ ".jar"),
        (st ++ "-" ++ v ++ ".jar") :: files, 1) := by
      simp only [r1, downloadServer, hrt]
      cases rt <;> simp_all
    have h2 : r2 = (some (st ++ "-" ++ v ++ ".jar"),
        (st ++ "-" ++ v ++ ".jar") :: files, 0) := by
      have hc2 : (((st ++ "-" ++ v ++ ".jar") :: files).contains
          (st ++ "-" ++ v ++ ".jar")) = true := by
        simp [List.contains_cons]
      simp only [r2, downloadServer, hrt, h1]
      cases rt <;> simp_all
    simp [h1, h2]

/-- C1 (counterexample): for `server_type = "fabric"` the claim of at
most one network fetch across two `download_server` calls fails: the
jar is written as `fabric-server.jar` (`main.py` 292) but the cache
check looks for `fabric-1.20.1.jar` (`main.py` 246-249), so the second
call fetches again — two artifact GETs in total, not at most one. -/
theorem claim_C1_counterexample :
    (downloadServer "fabric" "1.20.1" netAllOk []).2.2 +
      (downloadServer "fabric" "1.20.1" netAllOk
        (downloadServer "fabric" "1.20.1" netAllOk []).2.1).2.2 = 2 ∧
    Nat.ble ((downloadServer "fabric" "1.20.1" netAllOk []).2.2 +
      (downloadServer "fabric" "1.20.1" netAllOk
        (downloadServer "fabric" "1.20.1" netAllOk []).2.1).2.2) 1 = false ∧
    (downloadServer "fabric" "1.20.1" netAllOk []).2.1 = ["fabric-server.jar"] := by
  decide

/-- C1 (amended): for the server types whose download is written at the
checked cache path — `vanilla`, `paper`, `purpur`, `velocity` — two
successive `download_server` calls for the same `(server_type, version)`
perform the artifact fetch at most once; the second call issues no
fetch, returns the cached jar path, and leaves the directory unchanged.
(The `fabric` branch stores the jar under a different name than the one
the cache check probes, so it re-fetches on every call.) -/
theorem claim_C1_theorem (st : String)
    (hst : st ∈ (["vanilla", "paper", "purpur", "velocity"] : List String))
    (v : String) (env : NetEnv) (files : List String)
    (hres : env.resolveOk = true) (hfet : env.fetchOk = true) :
    let r1 := downloadServer st v env files
    let r2 := downloadServer st v env r1.2.1
    r2.2.2 = 0 ∧ r1.2.2 + r2.2.2 ≤ 1 ∧
      r2.1 = some (st ++ "-" ++ v ++ ".jar") ∧ r2.2.1 = r1.2.1 := by
  fin_cases hst
  · exact downloadServer_idem "vanilla" v RepoType.mojang env files rfl
      (by decide) (by decide) hres hfet
  · exact downloadServer_idem "paper" v RepoType.papermc env files rfl
      (by decide) (by decide) hres hfet
  · exact downloadServer_idem "purpur" v RepoType.purpur env files rfl
      (by decide) (by decide) hres hfet
  · exact downloadServer_idem "velocity" v RepoType.velocity env files rfl
      (by decide) (by decide) hres hfet

/-- C1 (witness): the amended idempotence at `("vanilla", "1.20.1")`
starting from an empty server directory. -/
theorem claim_C1_witness :
    (let r1 := downloadServer "vanilla" "1.20.1" netAllOk []
     let r2 := downloadServer "vanilla" "1.20.1" netAllOk r1.2.1
     r2.2.2 = 0 ∧ r1.2.2 + r2.2.2 ≤ 1 ∧
       r2.1 = some ("vanilla" ++ "-" ++ "1.20.1" ++ ".jar") ∧ r2.2.1 = r1.2.1) :=
  claim_C1_theorem "vanilla" (by decide) "1.20.1" netAllOk [] rfl rfl

/-- C2 (counterexample): the two wizard kinds use independent session
tables and each start command only checks its own table
(`discord_bot.py` 906 and 1024), so a user with a live creation session
can start a plugin-install session: the second start is accepted, not
rejected, and afterwards both sessions are live for the same user. -/
theorem claim_C2_counterexample :
    ((serverCreateCallback 42 ⟨[], []⟩).1 = WizardStartReply.started) ∧
    ((serverInstallPluginCallback 42 25565 (some "paper")
        (serverCreateCallback 42 ⟨[], []⟩).2).1 = WizardStartReply.started) ∧
    (((serverInstallPluginCallback 42 25565 (some "paper")
        (serverCreateCallback 42 ⟨[], []⟩).2).1 ==
      WizardStartReply.alreadyActive) = false) ∧
    (((serverInstallPluginCallback 42 25565 (some "paper")
        (serverCreateCallback 42 ⟨[], []⟩).2).2.setup_sessions.lookup 42).isSome
      = true) ∧
    (((serverInstallPluginCallback 42 25565 (some "paper")
        (serverCreateCallback 42 ⟨[], []⟩).2).2.plugin_sessions.lookup 42).isSome
      = true) := by
  decide

/-- C2 (amended): the exclusivity invariant holds per wizard kind, not
across kinds: starting a creation wizard while the user already has a
creation session is rejected and mutates nothing, and likewise starting
a plugin-install wizard while the user already has a plugin session is
rejected and mutates nothing; sessions of the two different kinds can
coexist for one user. -/
theorem claim_C2_theorem (b : BotState) (uid port : Nat) (stype : String) :
    ((b.setup_sessions.lookup uid).isSome = true →
      serverCreateCallback uid b = (WizardStartReply.alreadyActive, b)) ∧
    ((b.plugin_sessions.lookup uid).isSome = true →
      serverInstallPluginCallback uid port (some stype) b =
        (WizardStartReply.alreadyActive, b)) := by
  constructor
  · intro h
    simp [serverCreateCallback, h]
  · intro h
    simp [serverInstallPluginCallback, h]

/-- C2 (witness): same-kind rejection at a concrete bot state holding
one session of each kind for user 7. -/
theorem claim_C2_witness :
    serverCreateCallback 7
        ⟨[(7, freshSetupSession)], [(7, freshPluginSession 25565 "paper")]⟩ =
      (WizardStartReply.alreadyActive,
        ⟨[(7, freshSetupSession)], [(7, freshPluginSession 25565 "paper")]⟩) ∧
    serverInstallPluginCallback 7 25565 (some "paper")
        ⟨[(7, freshSetupSession)], [(7, freshPluginSession 25565 "paper")]⟩ =
      (WizardStartReply.alreadyActive,
        ⟨[(7, freshSetupSession)], [(7, freshPluginSession 25565 "paper")]⟩) := by
  have h := claim_C2_theorem
    ⟨[(7, freshSetupSession)], [(7, freshPluginSession 25565 "paper")]⟩ 7 25565 "paper"
  exact ⟨h.1 (by decide), h.2 (by decide)⟩

/-- Helper: when the process never exits on its own, the bounded poll
loop of `stop()` runs all its iterations. -/
theorem pollLoop_ignores (pb : ProcBehavior) (h : pb.exitTime = none) :
    ∀ n t, pollLoop pb n t = t + n := by
  intro n
  induction n with
  | zero => intro t; simp [pollLoop]
  | succ k ih =>
      intro t
      have hpe : procExited pb t = false := by simp [procExited, h]
      simp [pollLoop, hpe, ih]
      omega

/-- C3 (confirmed): `stop()` on a server with a live process handle (so
the guard at `main.py` 426 passes) whose stdin accepts the shutdown
directive always returns `True` with status `stopped` and the handle
cleared, whatever the process does; and when the process ignores both
the directive and the termination signal, the call runs the full 30
one-second polls, terminates, waits 5 seconds, and force-kills. -/
theorem claim_C3_theorem (s : MCServer) (pb : ProcBehavior)
    (hp : s.process = true) (hs : s.status ≠ Status.stopped)
    (hw : pb.stdinOpen = true) :
    (stopServer s pb).ok = true ∧
    (stopServer s pb).srv.status = Status.stopped ∧
    (stopServer s pb).srv.process = false ∧
    (pb.exitTime = none → pb.diesOnTerminate = false →
      (stopServer s pb).trace = ⟨30, true, true⟩) := by
  have hg : ¬ (s.process = false ∨ s.status = Status.stopped) := by
    rintro (h | h)
    · rw [hp] at h; cases h
    · exact hs h
  have hw2 : ¬ (pb.stdinOpen = false) := by rw [hw]; simp
  unfold stopServer
  rw [if_neg hg, if_neg hw2]
  refine ⟨rfl, rfl, rfl, ?_⟩
  intro he hd
  have hpe : ∀ t, procExited pb t = false := by
    intro t; simp [procExited, he]
  have hpl : pollLoop pb 30 0 = 30 := by
    rw [pollLoop_ignores pb he]
  simp [hpl, hpe, hd]

/-- C3 (witness): stopping a running server whose process ignores every
shutdown mechanism ends `stopped`, cleared, after the full escalation. -/
theorem claim_C3_witness :
    (stopServer { exampleServer with process := true, status := Status.running }
        ⟨true, none, false⟩).ok = true ∧
    (stopServer { exampleServer with process := true, status := Status.running }
        ⟨true, none, false⟩).srv.status = Status.stopped ∧
    (stopServer { exampleServer with process := true, status := Status.running }
        ⟨true, none, false⟩).srv.process = false ∧
    (stopServer { exampleServer with process := true, status := Status.running }
        ⟨true, none, false⟩).trace = ⟨30, true, true⟩ := by
  have h := claim_C3_theorem
    { exampleServer with process := true, status := Status.running }
    ⟨true, none, false⟩ rfl (by decide) rfl
  exact ⟨h.1, h.2.1, h.2.2.1, h.2.2.2 rfl rfl⟩

/-- Helper: a single status write produces at most the one edge, which
is fine whenever that edge is allowed. -/
theorem edges_single_ok (cur w : Status) (P : Status × Status → Bool)
    (h : P (cur, w) = true) :
    ∀ pr ∈ edgesOfWrites cur [w], P pr = true := by
  intro pr hm
  simp only [edgesOfWrites] at hm
  split at hm
  · simp at hm
  · simp at hm
    rw [hm]
    exact h

/-- Helper: two status writes produce at most the two edges. -/
theorem edges_pair_ok (cur w1 w2 : Status) (P : Status × Status → Bool)
    (h1 : P (cur, w1) = true) (h2 : P (w1, w2) = true) :
    ∀ pr ∈ edgesOfWrites cur [w1, w2], P pr = true := by
  intro pr hm
  simp only [edgesOfWrites, List.append_nil] at hm
  rcases List.mem_append.mp hm with hA | hB
  · split at hA
    · exact absurd hA (List.not_mem_nil pr)
    · rw [List.mem_singleton.mp hA]
      exact h1
  · split at hB
    · exact absurd hB (List.not_mem_nil pr)
    · rw [List.mem_singleton.mp hB]
      exact h2

/-- Helper: every edge produced by one `start()` call is in the code's
transition graph. -/
theorem start_writes_ok (s : MCServer) (env : NetEnv) (j sp : Bool)
    (fs : List String) :
    ∀ pr ∈ edgesOfWrites s.status (start s env j sp fs).writes, edgeOK pr = true := by
  unfold start
  by_cases hr : s.status = Status.running
  · simp [hr, edgesOfWrites]
  · rw [if_neg hr]
    rcases h : downloadServer s.server_type s.version env fs with ⟨o, fs1, n⟩
    cases o with
    | none => simp [edgesOfWrites]
    | some jar =>
        by_cases h1 : jar ∈ fs1
        · by_cases h2 : j = false
          · simp [h1, h2, edgesOfWrites]
          · by_cases h3 : sp = false
            · have hone := edges_single_ok s.status Status.error edgeOK
                (by simp [edgeOK])
              simpa [h1, h2, h3] using hone
            · have hone := edges_single_ok s.status Status.starting edgeOK
                (by simp [edgeOK, bne_iff_ne]; exact hr)
              simpa [h1, h2, h3] using hone
        · simp [h1, edgesOfWrites]

/-- Helper: every edge produced by one `stop()` call is in the code's
transition graph. -/
theorem stop_writes_ok (s : MCServer) (pb : ProcBehavior) :
    ∀ pr ∈ edgesOfWrites s.status (stopServer s pb).writes, edgeOK pr = true := by
  unfold stopServer
  by_cases hg : s.process = false ∨ s.status = Status.stopped
  · simp [hg, edgesOfWrites]
  · rw [if_neg hg]
    by_cases hw : pb.stdinOpen = false
    · simp [hw, edgesOfWrites]
    · rw [if_neg hw]
      have hs : s.status ≠ Status.stopped := fun h => hg (Or.inr h)
      exact edges_pair_ok s.status Status.stopping Status.stopped edgeOK
        (by simp [edgeOK, bne_iff_ne]; exact hs) (by simp [edgeOK])

/-- Helper: every edge produced by any single event is in the code's
transition graph. -/
theorem stepEv_edges_ok (st : SysState) (e : Ev) :
    ∀ pr ∈ edgesOfWrites st.srv.status (stepEv st e).2, edgeOK pr = true := by
  cases e with
  | opStart env j sp => exact start_writes_ok st.srv env j sp st.files
  | opStop pb => exact stop_writes_ok st.srv pb
  | line l =>
      by_cases hmon : st.monitorAlive = true
      · by_cases hd : (strContainsSub l "Done" && strContainsSub l "For help") = true
        · simp only [stepEv, hmon, hd, if_true]
          exact edges_single_ok st.srv.status Status.running edgeOK (by simp [edgeOK])
        · by_cases hf : strContainsSub l "Failed to start" = true
          · simp only [stepEv, hmon, hd, hf, if_true, Bool.false_eq_true, if_false]
            exact edges_single_ok st.srv.status Status.error edgeOK (by simp [edgeOK])
          · simp [stepEv, hmon, hd, hf, edgesOfWrites]
      · simp [stepEv, hmon, edgesOfWrites]
  | streamClose => simp [stepEv, edgesOfWrites]

/-- Helper: soundness of the code's transition graph over whole runs. -/
theorem runEdges_all_ok (evs : List Ev) :
    ∀ st : SysState, (runEdges st evs).all edgeOK = true := by
  induction evs with
  | nil => intro st; rfl
  | cons e rest ih =>
      intro st
      have h1 : (edgesOfWrites st.srv.status (stepEv st e).2).all edgeOK = true :=
        List.all_eq_true.mpr (stepEv_edges_ok st e)
      simp [runEdges, List.all_append, h1, ih]

/-- C4 (counterexample): starting from a fresh stopped server, a failed
spawn (status becomes `error`, `main.py` 222-226) followed by a
successful `start()` (status becomes `starting`, line 213) produces the
edge `error → starting`, which is outside the claimed graph of
`stopped → starting → running → stopping → stopped` plus edges into
`error`. -/
theorem claim_C4_counterexample :
    ((runEdges exampleInit
        [Ev.opStart netAllOk true false, Ev.opStart netAllOk true true]).all
      specEdgeOK = false) ∧
    (Status.error, Status.starting) ∈ runEdges exampleInit
        [Ev.opStart netAllOk true false, Ev.opStart netAllOk true true] ∧
    specEdgeOK (Status.error, Status.starting) = false := by
  decide

/-- C4 (amended): along every run of operations and output events, the
status only moves along the code's transition graph `edgeOK`: into
`starting` from any non-`running` status (a `start()` call, including
restarts out of `error`), into `stopping` from any non-`stopped` status,
from `stopping` to `stopped`, into `error` from anywhere, and into
`running` from anywhere (the reader thread applies a buffered completion
line whatever the current status is).  In particular the edge
`running → starting` is never observed. -/
theorem claim_C4_theorem (st : SysState) (evs : List Ev) :
    ((runEdges st evs).all edgeOK = true) ∧
    ((runEdges st evs).all
      (fun pr => pr != (Status.running, Status.starting)) = true) := by
  have hall := runEdges_all_ok evs st
  refine ⟨hall, List.all_eq_true.mpr ?_⟩
  intro pr hm
  have hok := List.all_eq_true.mp hall pr hm
  rcases pr with ⟨a, b⟩
  simp only [bne_iff_ne, ne_eq, Prod.mk.injEq, not_and]
  rintro rfl rfl
  simp [edgeOK] at hok

/-- C5 (counterexample): `monitor_output` (`main.py` 408-423) ends its
`for line in iter(...)` loop silently when the stream closes — there is
no status write on closure.  Concretely: a server is started, its
process prints the completion line (status `running`), then its output
stream closes with no stop in progress; the status stays `running` and
never becomes `error`. -/
theorem claim_C5_counterexample :
    ((runSys exampleInit
        [Ev.opStart netAllOk true true,
         Ev.line "[Server thread/INFO]: Done (3.14s)! For help, type help",
         Ev.streamClose]).srv.status = Status.running) ∧
    (((runSys exampleInit
        [Ev.opStart netAllOk true true,
         Ev.line "[Server thread/INFO]: Done (3.14s)! For help, type help",
         Ev.streamClose]).srv.status == Status.error) = false) := by
  decide

/-- C5 (amended): when the process output stream closes, the background
reader simply terminates: the server object (its status in particular)
is completely unchanged, no status value is written, and only the
reader itself ends. -/
theorem claim_C5_theorem (st : SysState) :
    (stepEv st Ev.streamClose).1.srv = st.srv ∧
    (stepEv st Ev.streamClose).2 = [] ∧
    (stepEv st Ev.streamClose).1.monitorAlive = false :=
  ⟨rfl, rfl, rfl⟩

/-- C6 (confirmed): when artifact resolution or download fails inside
`start()` — `download_server` catches every exception and returns `None`
(`main.py` 318-320), and `start()` checks for that (172-175) — `start()`
returns `False` and the server object, its status and process handle
included, is exactly as before the call. -/
theorem claim_C6_theorem (s : MCServer) (env : NetEnv) (jarOk spawnOk : Bool)
    (files : List String)
    (hs : s.status ≠ Status.running)
    (hdl : (downloadServer s.server_type s.version env files).1 = none) :
    start s env jarOk spawnOk files =
      ⟨false, s, (downloadServer s.server_type s.version env files).2.1, []⟩ := by
  unfold start
  rw [if_neg hs]
  rcases h : downloadServer s.server_type s.version env files with ⟨o, fs1, n⟩
  rw [h] at hdl
  cases o with
  | none => rfl
  | some jar => exact absurd hdl (by simp)

/-- C6 (witness): a vanilla server whose metadata resolution fails:
`start()` returns `False` with the server untouched. -/
theorem claim_C6_witness :
    start exampleServer ⟨false, false, [], true, []⟩ true true [] =
      ⟨false, exampleServer, [], []⟩ :=
  claim_C6_theorem exampleServer ⟨false, false, [], true, []⟩ true true []
    (by decide) (by decide)

/-- C7 (counterexample): the log-read route `get_logs`
(`main.py` 858-869) never consults the `servers` registry: for a port
absent from an empty registry it answers HTTP 200 with an empty log
list, not the claimed 404. -/
theorem claim_C7_counterexample :
    (([] : List (Nat × MCServer)).lookup 25565 = none) ∧
    ((get_logs 25565 50 emptyDB).1 = 200) ∧
    (((get_logs 25565 50 emptyDB).1 == 404) = false) ∧
    ((get_logs 25565 50 emptyDB).2 = []) := by
  decide

/-- C7 (amended): per-port endpoints that look the port up in the
registry (the status endpoint among them) answer 404 for an unknown
port, returning no body and changing no state; the log-read endpoint is
the exception: it skips the registry lookup and answers 200 with the
port's stored log rows (the empty list when none exist), also changing
no state (both routes only read). -/
theorem claim_C7_theorem (port limit : Nat) (registry : List (Nat × MCServer))
    (db : DB) (h : registry.lookup port = none) :
    get_status port registry = (404, none) ∧
    (get_logs port limit db).1 = 200 ∧
    (get_logs port limit db).2 =
      ((((db.server_logs.filter (fun r => r.port == port)).map
        (fun r => r.text)).reverse.take limit).reverse) := by
  refine ⟨?_, rfl, rfl⟩
  unfold get_status
  rw [h]

/-- C7 (witness): the amended behaviour at port 25565, an empty registry
and an empty database. -/
theorem claim_C7_witness :
    get_status 25565 ([] : List (Nat × MCServer)) = (404, none) ∧
    (get_logs 25565 50 emptyDB).1 = 200 ∧
    (get_logs 25565 50 emptyDB).2 =
      ((((emptyDB.server_logs.filter (fun r => r.port == 25565)).map
        (fun r => r.text)).reverse.take 50).reverse) :=
  claim_C7_theorem 25565 50 [] emptyDB rfl

/-- C8 (confirmed): at step 1 of the creation wizard, the out-of-range
port `25000` draws the range error and leaves the session exactly as it
was (still at step 1), while the in-range, unoccupied port `25600` is
recorded and the session advances to step 2 with its other accumulated
fields untouched (`discord_bot.py` 356-391). -/
theorem claim_C8_theorem (p : Option Int) (t v : Option String) (m : String)
    (portTaken : Int → Bool) (createOk : Bool)
    (hfree : portTaken 25600 = false) :
    handleSetupSession ⟨1, p, t, v, m⟩ "25000" portTaken createOk =
      (SetupReply.portOutOfRange, some ⟨1, p, t, v, m⟩) ∧
    handleSetupSession ⟨1, p, t, v, m⟩ "25600" portTaken createOk =
      (SetupReply.askType, some ⟨2, some 25600, t, v, m⟩) := by
  constructor
  · rfl
  · have h : handleSetupSession ⟨1, p, t, v, m⟩ "25600" portTaken createOk =
        if portTaken 25600 then (SetupReply.portInUse, some ⟨1, p, t, v, m⟩)
        else (SetupReply.askType, some ⟨2, some 25600, t, v, m⟩) := rfl
    rw [h, hfree]
    simp

/-- C8 (witness): the round trip on a fresh session with no occupied
ports. -/
theorem claim_C8_witness :
    handleSetupSession freshSetupSession "25000" (fun _ => false) true =
      (SetupReply.portOutOfRange, some freshSetupSession) ∧
    handleSetupSession freshSetupSession "25600" (fun _ => false) true =
      (SetupReply.askType, some ⟨2, some 25600, none, none, "2G"⟩) :=
  claim_C8_theorem none none none "2G" (fun _ => false) true rfl

/-- Helper: deleting a user's session really removes it from the table. -/
theorem lookup_eraseSession {α : Type} (uid : Nat) (m : List (Nat × α)) :
    (eraseSession uid m).lookup uid = none := by
  induction m with
  | nil => rfl
  | cons p rest ih =>
      obtain ⟨k, v⟩ := p
      by_cases h : k = uid
      · have hr : eraseSession uid ((k, v) :: rest) = eraseSession uid rest := by
          simp [eraseSession, List.filter, h]
        rw [hr]
        exact ih
      · have hb : (k != uid) = true := by
          simp [bne_iff_ne]
          exact h
        have hr : eraseSession uid ((k, v) :: rest) =
            (k, v) :: eraseSession uid rest := by
          simp only [eraseSession, List.filter, hb]
        rw [hr]
        have hk : (uid == k) = false := by
          simp only [beq_eq_false_iff_ne, ne_eq]
          exact fun hh => h hh.symm
        simp only [List.lookup, hk]
        exact ih

/-- C9 (confirmed): in both wizards the cancellation tokens are tested
before any step-specific validation — for any live session, whatever
its step and accumulated state, a cancelling input yields the
cancellation reply and removes the session from the table, so
subsequent input from that user finds no active session.  The creation
wizard tests the stripped lowered content (`discord_bot.py` 347-350),
the plugin wizard the raw lowered content (line 525). -/
theorem claim_C9_theorem (ms : List (Nat × SetupSession))
    (mp : List (Nat × PluginSession)) (uid : Nat)
    (sessS : SetupSession) (sessP : PluginSession) (content : String)
    (portTaken : Int → Bool) (createOk : Bool) (atts : List Attachment)
    (dl : Option (String × String)) (uploadOk : Bool) :
    (ms.lookup uid = some sessS →
      cancelWords.contains (pyLower (pyStrip content)) = true →
      (handleSetupMessage ms uid content portTaken createOk).2.1 =
        some SetupReply.cancelled ∧
      ((handleSetupMessage ms uid content portTaken createOk).2.2).lookup uid =
        none) ∧
    (mp.lookup uid = some sessP →
      cancelWords.contains (pyLower content) = true →
      (pluginOnMessage mp uid content atts dl uploadOk).1 =
        some PluginReply.cancelled ∧
      ((pluginOnMessage mp uid content atts dl uploadOk).2).lookup uid = none) := by
  constructor
  · intro hms hc
    have hsess : handleSetupSession sessS content portTaken createOk =
        (SetupReply.cancelled, none) := by
      simp only [handleSetupSession]
      rw [if_pos hc]
    constructor
    · simp [handleSetupMessage, hms, hsess]
    · simp [handleSetupMessage, hms, hsess, lookup_eraseSession]
  · intro hmp hc
    have hsess : handlePluginSession sessP content atts dl uploadOk =
        (PluginReply.cancelled, none) := by
      simp only [handlePluginSession]
      rw [if_pos hc]
    constructor
    · simp [pluginOnMessage, hmp, hsess]
    · simp [pluginOnMessage, hmp, hsess, lookup_eraseSession]

/-- C9 (witness): uppercase `CANCEL` cancels a live session of each
wizard kind for user 7, leaving no active session behind. -/
theorem claim_C9_witness :
    ((handleSetupMessage [(7, freshSetupSession)] 7 "CANCEL"
        (fun _ => false) true).2.1 = some SetupReply.cancelled) ∧
    (((handleSetupMessage [(7, freshSetupSession)] 7 "CANCEL"
        (fun _ => false) true).2.2).lookup 7 = none) ∧
    ((pluginOnMessage [(7, freshPluginSession 25565 "paper")] 7 "CANCEL"
        [] none true).1 = some PluginReply.cancelled) ∧
    (((pluginOnMessage [(7, freshPluginSession 25565 "paper")] 7 "CANCEL"
        [] none true).2).lookup 7 = none) := by
  have h := claim_C9_theorem [(7, freshSetupSession)]
    [(7, freshPluginSession 25565 "paper")] 7 freshSetupSession
    (freshPluginSession 25565 "paper") "CANCEL" (fun _ => false) true [] none true
  have ha := h.1 rfl (by decide)
  have hb := h.2 rfl (by decide)
  exact ⟨ha.1, ha.2, hb.1, hb.2⟩

/-- Helper: on a temporary server, any sequence of `update_status` and
`add_log` calls leaves the database untouched. -/
theorem applySrvOps_temp (ops : List SrvOp) :
    ∀ (s : MCServer) (db : DB), s.temporary = true →
      (applySrvOps s db ops).2 = db := by
  induction ops with
  | nil => intro s db h; rfl
  | cons op rest ih =>
      intro s db h
      cases op with
      | updStatus st now =>
          simp only [applySrvOps, update_status, h, if_true]
          exact ih _ _ (by simp [h])
      | logMsg m l t =>
          simp only [applySrvOps, add_log, h, if_true]
          exact ih _ _ h

/-- C10 (confirmed): a `MinecraftServer` constructed with
`temporary=True` skips the initial save (`main.py` 67-68), and every
following `update_status` / `add_log` call on it returns before issuing
any SQL (lines 84-85 and 98-99), so the database — both the `servers`
and `server_logs` tables — is unchanged by any use of the instance. -/
theorem claim_C10_theorem (port : Nat) (version stype : String) (db : DB)
    (ops : List SrvOp) :
    (mkMinecraftServer port version stype true db).2 = db ∧
    (applySrvOps (mkMinecraftServer port version stype true db).1 db ops).2 = db := by
  constructor
  · rfl
  · exact applySrvOps_temp ops _ db rfl

end Minecon
